import Mathlib

/-!
# Verification of the quinoa/granola audio capture engine

Shallow embedding of the capture-session engine and the device-topology
resolver of the `quinoa` repository (packages `quinoa_audio` and
`granola_audio`, two near-duplicate Rust crates).

Floating point (`f32`) is modelled by `ℚ`: every operation the code performs
on samples (absolute value, maximum, comparison, clamping, multiplication by
32767, truncation toward zero) is exact on the values the claims mention, so
the rational model coincides with the IEEE semantics there.

Effectful collaborators (the PipeWire daemon, the filesystem, the WAV
backend) are modelled by a `SetupWorld` of outcome flags: each flag stands
for the success/failure of one fallible external call, and the scripted
`actions` list stands for the callbacks the PipeWire loop delivers to the
worker thread while `mainloop.run()` is live.
-/

set_option autoImplicit false

namespace Quinoa

/-! ## Sample conversion (src/quinoa_audio/src/capture/encoder.rs, `AudioEncoder::write`)

`let val = (sample.clamp(-1.0, 1.0) * 32767.0) as i16;`
-/

/-- Rust `f32::clamp(-1.0, 1.0)` on a (non-NaN) sample. -/
def clamp_unit (s : ℚ) : ℚ := if s < -1 then -1 else if s > 1 then 1 else s

/-- Truncation toward zero, the rounding used by Rust float-to-int `as` casts. -/
def rat_trunc (q : ℚ) : ℤ := if 0 ≤ q then ⌊q⌋ else ⌈q⌉

/-- Rust `as i16` saturates at the bounds of the target type. -/
def sat_i16 (z : ℤ) : ℤ := max (-32768) (min 32767 z)

/-- The full conversion applied to each sample by `AudioEncoder::write`
(encoder.rs line 36): clamp to `[-1, 1]`, scale by 32767, cast with `as i16`. -/
def sample_to_i16 (s : ℚ) : ℤ := sat_i16 (rat_trunc (clamp_unit s * 32767))

/-! ## Encoder (src/quinoa_audio/src/capture/encoder.rs)

An `AudioEncoder`'s observable state is its `writer : Option (List ℤ)`:
`some ws` is a live WAV writer holding the already-written 16-bit samples,
`none` is the state after `finalize` has taken the writer.  Whether an
individual `write_sample` call or the `finalize` call fails is decided by
the world (a failure index / a flag), since it depends on the filesystem. -/

/-- `AudioEncoder::write` (encoder.rs lines 31-44): iterate over the batch,
convert each sample and hand it to the WAV writer.  `fail_at = some j` means
the underlying `write_sample` errors on the `j`-th sample of this batch: the
`?` operator then returns the error immediately, with samples `0..j` already
written.  If the writer is gone (post-`finalize`) the loop body is skipped
and the call returns `Ok`.  The returned `Bool` is `true` iff the call
returned `Ok`. -/
def encoder_write (writer : Option (List ℤ)) (samples : List ℚ) (fail_at : Option ℕ) :
    Option (List ℤ) × Bool :=
  match writer with
  | none => (none, true)
  | some ws =>
    match fail_at with
    | none => (some (ws ++ samples.map sample_to_i16), true)
    | some j =>
      if j < samples.length then
        (some (ws ++ (samples.take j).map sample_to_i16), false)
      else
        (some (ws ++ samples.map sample_to_i16), true)

/-- `AudioEncoder::finalize` (encoder.rs lines 46-55): `take` the writer (it
is gone afterwards even if finalization fails) and finalize it; `ok` is the
world's verdict on the underlying `WavWriter::finalize` call.  With no live
writer the call is a no-op returning `Ok`.  The returned `Bool` is `true`
iff the call returned `Ok`. -/
def encoder_finalize (writer : Option (List ℤ)) (ok : Bool) : Option (List ℤ) × Bool :=
  match writer with
  | none => (none, true)
  | some _ => (none, ok)

/-! ## Session data model (src/granola_audio/src/capture/session.rs) -/

/-- `InternalAudioEvent` (session.rs lines 33-40). -/
inductive InternalAudioEvent where
  | started
  | stopped
  | error (msg : String)
  | levels (mic system : ℚ)
  | deviceLost (id : String)
  | pipewireDisconnected
deriving DecidableEq, Repr

/-- `RecordingConfig` (session.rs lines 91-102). -/
structure RecordingConfig where
  mic_device_id : Option String
  system_audio : Bool
  output_dir : String
  sample_rate : ℕ
deriving DecidableEq, Repr

/-- Mutable state shared by the two stream callbacks and the watchdog timer
while the PipeWire loop is running: the two peak accumulators of
`SharedLevels` (session.rs lines 202-205), the two lazily created encoders
(`Arc<Mutex<Option<AudioEncoder>>>`, session.rs lines 427 and 445, with the
encoder's own writer nested inside), and the loop's quit/stop bookkeeping
(`stop_requested`, session.rs line 469). -/
structure RunState where
  mic_level : ℚ
  sys_level : ℚ
  mic_enc : Option (Option (List ℤ))
  sys_enc : Option (Option (List ℤ))
  stop_requested : Bool
  quit : Bool
deriving DecidableEq, Repr

def init_run_state : RunState :=
  { mic_level := 0, sys_level := 0, mic_enc := none, sys_enc := none,
    stop_requested := false, quit := false }

/-- One callback dispatched by the PipeWire main loop to the worker thread:
an accepted raw-audio format negotiation (`param_changed`, with the world's
verdict on `AudioEncoder::new`), a buffer delivery (`process`, carrying the
decoded float samples and the world's write-failure index), a watchdog timer
tick (with whether a `Stop` command is pending in the channel), or an
unexpected termination of the loop (daemon crash). -/
inductive RunAction where
  | format (is_mic : Bool) (create_ok : Bool)
  | deliver (is_mic : Bool) (samples : List ℚ) (fail_at : Option ℕ)
  | tick (stop_pending : Bool)
  | quitUnexpected
deriving DecidableEq, Repr

/-- Peak of one decoded batch (session.rs line 321):
`float_samples.iter().map(|s| s.abs()).fold(0.0, f32::max)`. -/
def batch_peak (samples : List ℚ) : ℚ := samples.foldl (fun a s => max a |s|) 0

/-- Effect of one callback on the shared state, together with the events it
sends on the event channel.

* `format` (session.rs lines 257-295): if no encoder exists for the stream
  yet, construct exactly one; a construction failure is logged and leaves
  the stream without an encoder.  Once an encoder exists, later format
  notifications leave it unchanged.
* `deliver` (session.rs lines 296-340): merge the batch peak into the
  stream's accumulator via `max`, then, if an encoder exists, forward the
  batch to it with the write result discarded (`let _ = encoder.write(...)`).
* `tick` (session.rs lines 472-504): drain at most one command — a pending
  `Stop` sets `stop_requested` and asks the loop to quit — then read and
  reset both accumulators and send exactly one `Levels` event carrying the
  pre-reset pair.
* `quitUnexpected`: the loop stops dispatching without a stop request. -/
def step (s : RunState) : RunAction → RunState × List InternalAudioEvent
  | .format is_mic create_ok =>
    if is_mic then
      match s.mic_enc with
      | none => ({ s with mic_enc := if create_ok then some (some []) else none }, [])
      | some _ => (s, [])
    else
      match s.sys_enc with
      | none => ({ s with sys_enc := if create_ok then some (some []) else none }, [])
      | some _ => (s, [])
  | .deliver is_mic samples fail_at =>
    if is_mic then
      let s1 := { s with mic_level := max s.mic_level (batch_peak samples) }
      (match s1.mic_enc with
       | some w => { s1 with mic_enc := some (encoder_write w samples fail_at).1 }
       | none => s1, [])
    else
      let s1 := { s with sys_level := max s.sys_level (batch_peak samples) }
      (match s1.sys_enc with
       | some w => { s1 with sys_enc := some (encoder_write w samples fail_at).1 }
       | none => s1, [])
  | .tick stop_pending =>
    let s1 := if stop_pending then { s with stop_requested := true, quit := true } else s
    ({ s1 with mic_level := 0, sys_level := 0 }, [.levels s.mic_level s.sys_level])
  | .quitUnexpected => ({ s with quit := true }, [])

/-- `mainloop.run()` (session.rs line 509): dispatch the scripted callbacks in
order until the loop has been asked to quit. -/
def run_actions (s : RunState) : List RunAction → RunState × List InternalAudioEvent
  | [] => (s, [])
  | a :: rest =>
    if s.quit then (s, [])
    else
      let (s1, es) := step s a
      let (s2, es2) := run_actions s1 rest
      (s2, es ++ es2)

/-- `SessionError` (session.rs lines 378-381). -/
inductive SessionError where
  | fatal (msg : String)
  | recoverable (msg : String)
deriving DecidableEq, Repr

/-- The outcomes the world assigns to the fallible external calls of one
`connect_and_run` attempt, plus the callbacks its loop will dispatch. -/
structure SetupWorld where
  main_loop_ok : Bool
  context_ok : Bool
  core_connect_ok : Bool
  dir_ok : Bool
  mic_stream_ok : Bool
  sys_stream_ok : Bool
  actions : List RunAction
  mic_finalize_ok : Bool
  sys_finalize_ok : Bool
deriving DecidableEq, Repr

/-- The externally visible operations of one `connect_and_run` attempt, in
execution order. -/
inductive SetupStep where
  | createMainLoop
  | createContext
  | connectCore
  | ensureOutputDir
  | emitStarted
  | createMicStream
  | createSysStream
  | armWatchdog
  | runLoop
deriving DecidableEq, Repr

/-- First position of a step in a step trace (`l.length` if absent). -/
def pos_of (x : SetupStep) : List SetupStep → ℕ
  | [] => 0
  | a :: rest => if a = x then 0 else pos_of x rest + 1

structure CoreResult where
  steps : List SetupStep
  events : List InternalAudioEvent
  outcome : Option SessionError
  final_state : RunState
deriving DecidableEq, Repr

/-- `connect_and_run` up to and including `mainloop.run()` (session.rs lines
384-509), in source order:

1. `MainLoop::new` — failure is `Fatal`;
2. `Context::new` — failure is `Fatal`;
3. `context.connect` — failure is `Recoverable` (the daemon may be
   mid-restart);
4. ensure the output directory exists (`create_dir_all`) — failure is
   `Fatal`;
5. send `Started` on the event channel (session.rs line 424);
6. if a microphone device is configured, create and connect the mic stream —
   failure is `Recoverable`;
7. if system audio is enabled, create and connect the system stream —
   failure is `Recoverable`;
8. arm the watchdog timer and run the loop; when the loop exits, the attempt
   is `Ok` if a `Stop` command was observed and `Recoverable` otherwise.

Error messages abstract the Rust `format!` payloads (the `{:?}` detail of
the underlying error is dropped; nothing in the control flow depends on
it). -/
def connect_and_run_core (cfg : RecordingConfig) (w : SetupWorld) : CoreResult :=
  if w.main_loop_ok = false then
    { steps := [.createMainLoop], events := [],
      outcome := some (.fatal "Failed to create main loop"),
      final_state := init_run_state }
  else if w.context_ok = false then
    { steps := [.createMainLoop, .createContext], events := [],
      outcome := some (.fatal "Failed to create context"),
      final_state := init_run_state }
  else if w.core_connect_ok = false then
    { steps := [.createMainLoop, .createContext, .connectCore], events := [],
      outcome := some (.recoverable "Failed to connect to core"),
      final_state := init_run_state }
  else if w.dir_ok = false then
    { steps := [.createMainLoop, .createContext, .connectCore, .ensureOutputDir], events := [],
      outcome := some (.fatal "Failed to create output dir"),
      final_state := init_run_state }
  else if cfg.mic_device_id.isSome = true ∧ w.mic_stream_ok = false then
    { steps := [.createMainLoop, .createContext, .connectCore, .ensureOutputDir, .emitStarted,
                .createMicStream],
      events := [.started],
      outcome := some (.recoverable "Failed to create mic stream"),
      final_state := init_run_state }
  else if cfg.system_audio = true ∧ w.sys_stream_ok = false then
    { steps := [.createMainLoop, .createContext, .connectCore, .ensureOutputDir, .emitStarted] ++
        (if cfg.mic_device_id.isSome then [.createMicStream] else []) ++ [.createSysStream],
      events := [.started],
      outcome := some (.recoverable "Failed to create system stream"),
      final_state := init_run_state }
  else
    let r := run_actions init_run_state w.actions
    { steps := [.createMainLoop, .createContext, .connectCore, .ensureOutputDir, .emitStarted] ++
        (if cfg.mic_device_id.isSome then [.createMicStream] else []) ++
        (if cfg.system_audio then [.createSysStream] else []) ++ [.armWatchdog, .runLoop],
      events := .started :: r.2,
      outcome := if r.1.stop_requested = true then none
                 else some (.recoverable "PipeWire mainloop exited unexpectedly"),
      final_state := r.1 }

/-- The finalize block over one stream's `Arc<Mutex<Option<AudioEncoder>>>`
(session.rs lines 512-521): if an encoder exists, call `finalize` on it and
discard the result (`let _ = encoder.finalize();`).  Returns the stream's
encoder state afterwards and `some ok` if a live writer was finalized with
verdict `ok` (`none` if no finalize work happened). -/
def finalize_stream (enc : Option (Option (List ℤ))) (ok : Bool) :
    Option (Option (List ℤ)) × Option Bool :=
  match enc with
  | none => (none, none)
  | some writer =>
    match writer with
    | none => (some none, none)
    | some _ => (some (encoder_finalize writer ok).1, some ok)

structure CarResult where
  steps : List SetupStep
  events : List InternalAudioEvent
  outcome : Option SessionError
  final_state : RunState
  mic_writer : Option (Option (List ℤ))
  sys_writer : Option (Option (List ℤ))
  mic_finalized : Option Bool
  sys_finalized : Option Bool
deriving DecidableEq, Repr

/-- Full `connect_and_run` (session.rs lines 384-532): the core attempt
followed by the encoder finalize block.  In the early-return branches no
encoder was ever created, so applying the finalize block to their (empty)
final state is the identity, matching the source where those branches
return before reaching it. -/
def connect_and_run (cfg : RecordingConfig) (w : SetupWorld) : CarResult :=
  let c := connect_and_run_core cfg w
  let mic := finalize_stream c.final_state.mic_enc w.mic_finalize_ok
  let sys := finalize_stream c.final_state.sys_enc w.sys_finalize_ok
  { steps := c.steps, events := c.events, outcome := c.outcome, final_state := c.final_state,
    mic_writer := mic.1, sys_writer := sys.1, mic_finalized := mic.2, sys_finalized := sys.2 }

/-- How the worker thread ends: `run_audio_thread` returned `Ok`, returned
`Err`, or is still inside its retry loop (the supplied world list only
covers finitely many attempts of the unbounded loop). -/
inductive ThreadOutcome where
  | ok
  | fatalError (msg : String)
  | stillRunning
deriving DecidableEq, Repr

/-- `run_audio_thread` (session.rs lines 535-564): loop over
`connect_and_run` attempts, one world per attempt.  A clean stop sends
`Stopped` and returns `Ok`; a `Fatal` error sends one `Error` event and
returns `Err`; a `Recoverable` error sends `PipeWireDisconnected`, sleeps,
and retries. -/
def run_audio_thread (cfg : RecordingConfig) : List SetupWorld →
    List InternalAudioEvent × ThreadOutcome
  | [] => ([], .stillRunning)
  | w :: rest =>
    let r := connect_and_run cfg w
    match r.outcome with
    | none => (r.events ++ [.stopped], .ok)
    | some (.fatal m) => (r.events ++ [.error m], .fatalError m)
    | some (.recoverable _) =>
      let t := run_audio_thread cfg rest
      (r.events ++ .pipewireDisconnected :: t.1, t.2)

/-- The closure spawned by `start_recording_impl` (session.rs lines 171-178):
run `run_audio_thread` and, if it returned `Err(e)`, send one more
`Error(e)` event on the same channel. -/
def worker_thread (cfg : RecordingConfig) (worlds : List SetupWorld) :
    List InternalAudioEvent × ThreadOutcome :=
  let t := run_audio_thread cfg worlds
  match t.2 with
  | .fatalError m => (t.1 ++ [.error m], t.2)
  | _ => t

/-- Number of `Error` events in a feed. -/
def count_errors (es : List InternalAudioEvent) : ℕ :=
  (es.filter fun e => match e with | .error _ => true | _ => false).length

/-- Number of `PipeWireDisconnected` events in a feed. -/
def count_disconnects (es : List InternalAudioEvent) : ℕ :=
  (es.filter fun e => match e with | .pipewireDisconnected => true | _ => false).length

/-! ## Device model (src/quinoa_audio/src/lib.rs) -/

/-- `DeviceType` (lib.rs lines 16-20). -/
inductive DeviceType where
  | microphone
  | speaker
  | monitor
deriving DecidableEq, Repr

/-- `Device` (lib.rs lines 71-88). -/
structure Device where
  id : String
  name : String
  device_type : DeviceType
  is_bluetooth : Bool
  sample_rate : ℕ
  channels : ℕ
  is_default : Bool
  bluetooth_profile : Option String
deriving DecidableEq, Repr

/-- A PipeWire property dictionary, and the duck-typed string lookup the code
performs on it (`props.get(key)`: first binding of the key wins). -/
def Props := List (String × String)

def get_prop (props : Props) (key : String) : Option String :=
  (List.find? (fun p => p.1 = key) props).map (fun p => p.2)

/-! ## Device enumeration (src/quinoa_audio/src/device/enumerate.rs) -/

/-- The registry "global" callback of `list_devices_pw` (enumerate.rs lines
113-165), for one registry entry with properties `props` (`none` when the
entry carries no property dictionary, in which case the callback body is
skipped) and numeric registry id `global_id`: classify the entry by its
`media.class`, and construct the `Device` pushed onto the result list, or
`none` when the entry is ignored. -/
def device_of_global (props? : Option Props) (global_id : ℕ) : Option Device :=
  match props? with
  | none => none
  | some props =>
    match get_prop props "media.class" with
    | none => none
    | some media_class =>
      let device_type : Option DeviceType :=
        if media_class = "Audio/Source" then some .microphone
        else if media_class = "Audio/Sink" then some .speaker
        else none
      match device_type with
      | none => none
      | some dt =>
        some
          { id := (get_prop props "node.name").getD (toString global_id)
            name := ((get_prop props "node.description").or
                ((get_prop props "node.nick").or (get_prop props "node.name"))).getD
                "Unknown Device"
            device_type := dt
            is_bluetooth := ((get_prop props "device.api").map (fun v => v == "bluez5")).getD false
            sample_rate := 48000
            channels := 2
            is_default := false
            bluetooth_profile := get_prop props "api.bluez5.profile" }

/-- The device list collected by the enumeration loop: one `Device` per
classified registry entry observed before the synchronization boundary, in
arrival order. -/
def collect_devices (globals : List (Option Props × ℕ)) : List Device :=
  globals.filterMap (fun g => device_of_global g.1 g.2)

/-- Whether the post-processing loop should mark a device as default, given
the resolved default-source and default-sink names. -/
def matches_default (d : Device) (def_source def_sink : Option String) : Bool :=
  (d.device_type = DeviceType.microphone ∧ def_source = some d.id) ∨
  (d.device_type = DeviceType.speaker ∧ def_sink = some d.id)

/-- The post-processing loop after `mainloop.run()` exits (enumerate.rs lines
196-210): for each collected device, set `is_default = true` when it is a
Microphone whose id equals the resolved default-source name, or a Speaker
whose id equals the resolved default-sink name. -/
def mark_defaults (devices : List Device) (def_source def_sink : Option String) : List Device :=
  devices.map fun d =>
    if d.device_type = DeviceType.microphone then
      match def_source with
      | some dflt => if d.id = dflt then { d with is_default := true } else d
      | none => d
    else if d.device_type = DeviceType.speaker then
      match def_sink with
      | some dflt => if d.id = dflt then { d with is_default := true } else d
      | none => d
    else d

/-! ## Device topology monitor (src/quinoa_audio/src/device/monitor.rs) -/

/-- `DeviceEvent` (lib.rs lines 24-31). -/
structure DeviceEvent where
  type_ : String
  device_id : Option String
  device_name : Option String
deriving DecidableEq, Repr

/-- The registry "global" callback of `run_monitor_thread` (monitor.rs lines
61-84): emit an `added` event iff the entry has properties whose
`media.class` is exactly `Audio/Source` or `Audio/Sink`, with the same
id/name resolution as enumeration. -/
def monitor_added_event (props? : Option Props) (global_id : ℕ) : Option DeviceEvent :=
  match props? with
  | none => none
  | some props =>
    match get_prop props "media.class" with
    | none => none
    | some media_class =>
      if media_class = "Audio/Source" ∨ media_class = "Audio/Sink" then
        some
          { type_ := "added"
            device_id := some ((get_prop props "node.name").getD (toString global_id))
            device_name := some (((get_prop props "node.description").or
                ((get_prop props "node.nick").or (get_prop props "node.name"))).getD
                "Unknown Device") }
      else none

/-- The registry "global_remove" callback of `run_monitor_thread` (monitor.rs
lines 85-91): every removal, relevant or not, emits an id-only event. -/
def monitor_removed_event (global_id : ℕ) : DeviceEvent :=
  { type_ := "removed", device_id := some (toString global_id), device_name := none }

/-! ## Default-device value parsing

`parse_default_device` (src/quinoa_audio/src/device/enumerate.rs lines
22-31) delegates JSON values to `serde_json`; the granola twin
(src/granola_audio/src/device/enumerate.rs lines 54-66) scans for the
`"name":` substring by hand.  Both are modelled below over `List Char`
(the values involved are ASCII, so char positions and Rust byte positions
agree). -/

def quote_char : Char := Char.ofNat 34

def backslash_char : Char := Char.ofNat 92

def open_brace_char : Char := Char.ofNat 123

def close_brace_char : Char := Char.ofNat 125

/-- Rust `json_val.starts_with` check on an opening brace: whether the value's
first character is an opening brace. -/
def starts_with_brace (v : String) : Bool := v.data.head? = some open_brace_char

def is_ws_char (c : Char) : Bool := c = ' ' ∨ c = '\t' ∨ c = '\n' ∨ c = '\r'

def skip_ws : List Char → List Char
  | [] => []
  | c :: rest => if is_ws_char c then skip_ws rest else c :: rest

/-- Body of a JSON string literal, after its opening quote: returns the
unescaped contents and the characters after the closing quote.  Handles the
backslash escapes for a quote and for a backslash; other escapes are
outside the modelled fragment. -/
def scan_string : List Char → Option (List Char × List Char)
  | [] => none
  | c :: rest =>
    if c = quote_char then some ([], rest)
    else if c = backslash_char then
      match rest with
      | [] => none
      | e :: rest2 =>
        if e = quote_char ∨ e = backslash_char then
          match scan_string rest2 with
          | some (s, r) => some (e :: s, r)
          | none => none
        else none
    else
      match scan_string rest with
      | some (s, r) => some (c :: s, r)
      | none => none

/-- One or more `"key": "value"` JSON fields followed by the object's closing
brace.  The fuel bounds the number of fields; each field consumes at least
one input character, so `input length + 1` fuel is always enough. -/
def scan_fields : ℕ → List Char → Option (List (List Char × List Char) × List Char)
  | 0, _ => none
  | fuel + 1, cs =>
    match skip_ws cs with
    | [] => none
    | k :: ktail =>
      if k = quote_char then
        match scan_string ktail with
        | none => none
        | some (key, r1) =>
          match skip_ws r1 with
          | [] => none
          | colon :: r3 =>
            if colon = ':' then
              match skip_ws r3 with
              | [] => none
              | q :: r5 =>
                if q = quote_char then
                  match scan_string r5 with
                  | none => none
                  | some (val, r6) =>
                    match skip_ws r6 with
                    | [] => none
                    | c :: r8 =>
                      if c = ',' then
                        match scan_fields fuel r8 with
                        | some (fields, rest) => some ((key, val) :: fields, rest)
                        | none => none
                      else if c = close_brace_char then some ([(key, val)], r8)
                      else none
                else none
            else none
      else none

/-- Modelled from the external collaborator `serde_json`
(`serde_json::from_str::<DefaultDevice>` where `DefaultDevice` has the
single field `name : String`, enumerate.rs lines 16-19 and 25-27), on the
fragment relevant here: a JSON object whose fields are string literals.
Succeeds with the value of the `name` field iff the whole input is such an
object carrying one (unknown fields are ignored, as serde does by
default). -/
def json_name_field (v : String) : Option String :=
  match skip_ws v.data with
  | [] => none
  | c :: rest =>
    if c = open_brace_char then
      let inner :=
        match skip_ws rest with
        | [] => none
        | d :: r2 =>
          if d = close_brace_char then some ([], r2)
          else scan_fields (rest.length + 1) rest
      match inner with
      | none => none
      | some (fields, rest2) =>
        if skip_ws rest2 = [] then
          match List.lookup "name".data fields with
          | some val => some (String.mk val)
          | none => none
        else none
    else none

/-- `parse_default_device` (src/quinoa_audio/src/device/enumerate.rs lines
23-31): a value starting with an opening brace is parsed as JSON and
resolves to its `name` field; any other value resolves to itself. -/
def parse_default_device (v : String) : Option String :=
  if starts_with_brace v then json_name_field v else some v

/-- First index at which `pat` occurs as a contiguous sublist
(Rust `str::find` for an ASCII pattern). -/
def find_sub_idx (pat : List Char) : List Char → Option ℕ
  | [] => if pat.isPrefixOf ([] : List Char) then some 0 else none
  | c :: rest =>
    if pat.isPrefixOf (c :: rest) then some 0
    else (find_sub_idx pat rest).map (· + 1)

/-- First index of a character (Rust `str::find(char)`). -/
def find_char_idx (t : Char) : List Char → Option ℕ
  | [] => none
  | c :: rest => if c = t then some 0 else (find_char_idx t rest).map (· + 1)

/-- The 7-character pattern `"name":` searched for by the granola parser. -/
def name_colon_pat : List Char := [quote_char, 'n', 'a', 'm', 'e', quote_char, ':']

/-- The hand-rolled granola twin of `parse_default_device`
(src/granola_audio/src/device/enumerate.rs lines 54-66): for a value
starting with an opening brace, locate the `"name":` substring, then the
next quote, and take the characters up to the following quote; any other
value resolves to itself. -/
def granola_default_name (v : String) : Option String :=
  if starts_with_brace v then
    match find_sub_idx name_colon_pat v.data with
    | none => none
    | some start =>
      let rest := v.data.drop (start + 7)
      match find_char_idx quote_char rest with
      | none => none
      | some start_quote =>
        let rest2 := rest.drop (start_quote + 1)
        match find_char_idx quote_char rest2 with
        | none => none
        | some end_quote => some (String.mk (rest2.take end_quote))
  else some v

/-- The metadata property callback around either parser (quinoa enumerate.rs
lines 85-101, granola enumerate.rs lines 51-96): a successfully parsed value
replaces the resolved default, an unparseable one is ignored and the prior
resolved value (initially `none`) is retained. -/
def apply_default_update (parse : String → Option String) (prev : Option String) (v : String) :
    Option String :=
  match parse v with
  | some name => some name
  | none => prev

/-! ## Concrete fixtures used by witnesses and counterexamples -/

def demo_mic_props : Props :=
  [("media.class", "Audio/Source"), ("node.name", "alsa_input.mic0")]

def demo_sink_props : Props :=
  [("media.class", "Audio/Sink"), ("node.name", "alsa_output.spk0"),
   ("node.description", "Speakers")]

def demo_stream_props : Props :=
  [("media.class", "Stream/Output/Audio"), ("node.name", "some-app")]

def demo_mic_device : Device :=
  { id := "alsa_input.mic0", name := "alsa_input.mic0", device_type := .microphone,
    is_bluetooth := false, sample_rate := 48000, channels := 2, is_default := false,
    bluetooth_profile := none }

def demo_sink_device : Device :=
  { id := "alsa_output.spk0", name := "Speakers", device_type := .speaker,
    is_bluetooth := false, sample_rate := 48000, channels := 2, is_default := false,
    bluetooth_profile := none }

/-! ## C10 — enumeration reports constant format fields -/

/-- C10: every `Device` produced by the enumeration callback has
`sample_rate = 48000` and `channels = 2`, for every property dictionary a
registry entry may carry — the two fields are the constants of
enumerate.rs lines 147-148, not queried hardware values. -/
theorem C10_constant_format (props? : Option Props) (gid : ℕ) (d : Device)
    (h : device_of_global props? gid = some d) :
    d.sample_rate = 48000 ∧ d.channels = 2 := by
  cases props? with
  | none => exact absurd h (by simp [device_of_global])
  | some props =>
    simp only [device_of_global] at h
    cases hmc : get_prop props "media.class" with
    | none => rw [hmc] at h; exact absurd h (by simp)
    | some mc =>
      rw [hmc] at h
      by_cases h1 : mc = "Audio/Source"
      · simp only [h1, if_pos rfl] at h
        cases h; exact ⟨rfl, rfl⟩
      · by_cases h2 : mc = "Audio/Sink"
        · simp only [h1, h2, if_neg, if_pos rfl, ite_false] at h
          cases h; exact ⟨rfl, rfl⟩
        · simp [h1, h2] at h

theorem C10_constant_format_witness :
    demo_mic_device.sample_rate = 48000 ∧ demo_mic_device.channels = 2 :=
  C10_constant_format (some demo_mic_props) 7 demo_mic_device (by rfl)

/-! ## C8 — media-class classification -/

/-- C8: a registry entry produces a `Device` (during enumeration) or an
`Added` event (during monitoring) exactly when its `media.class` property is
exactly `"Audio/Source"` (giving type Microphone) or exactly `"Audio/Sink"`
(giving type Speaker); entries with any other class, with no class, or with
no property dictionary produce nothing, and the `Monitor` device type is
never produced. -/
theorem C8_classification (props : Props) (gid : ℕ) :
    device_of_global none gid = none ∧
    monitor_added_event none gid = none ∧
    ((device_of_global (some props) gid).isSome ↔
      (get_prop props "media.class" = some "Audio/Source" ∨
       get_prop props "media.class" = some "Audio/Sink")) ∧
    (∀ d, device_of_global (some props) gid = some d →
      d.device_type ≠ DeviceType.monitor ∧
      (d.device_type = DeviceType.microphone ↔
        get_prop props "media.class" = some "Audio/Source") ∧
      (d.device_type = DeviceType.speaker ↔
        get_prop props "media.class" = some "Audio/Sink")) ∧
    ((monitor_added_event (some props) gid).isSome ↔
      (device_of_global (some props) gid).isSome) := by
  refine ⟨rfl, rfl, ?_, ?_, ?_⟩ <;>
  · simp only [device_of_global, monitor_added_event]
    cases hmc : get_prop props "media.class" with
    | none => simp [hmc]
    | some mc =>
      by_cases h1 : mc = "Audio/Source" <;> by_cases h2 : mc = "Audio/Sink" <;> simp_all

theorem C8_classification_witness :
    demo_mic_device.device_type ≠ DeviceType.monitor ∧
    ((monitor_added_event (some demo_stream_props) 3).isSome ↔
      (device_of_global (some demo_stream_props) 3).isSome) :=
  ⟨(((C8_classification demo_mic_props 7).2.2.2.1) demo_mic_device (by rfl)).1,
   (C8_classification demo_stream_props 3).2.2.2.2⟩

/-! ## C9 — post-hoc default marking -/

/-- Every device the enumeration callback constructs carries
`is_default = false` (it is only set later, by the post-processing pass). -/
theorem collected_not_default (globals : List (Option Props × ℕ)) :
    ∀ d ∈ collect_devices globals, d.is_default = false := by
  intro d hd
  obtain ⟨g, -, hg⟩ := List.mem_filterMap.mp hd
  cases g1 : g.1 with
  | none => rw [g1] at hg; exact absurd hg (by simp [device_of_global])
  | some props =>
    rw [g1] at hg
    simp only [device_of_global] at hg
    cases hmc : get_prop props "media.class" with
    | none => rw [hmc] at hg; exact absurd hg (by simp)
    | some mc =>
      rw [hmc] at hg
      by_cases h1 : mc = "Audio/Source"
      · simp only [h1, if_pos rfl] at hg; cases hg; rfl
      · by_cases h2 : mc = "Audio/Sink"
        · simp only [h1, h2, if_neg, if_pos rfl, ite_false] at hg; cases hg; rfl
        · simp [h1, h2] at hg

/-- The marking pass on any list of not-yet-marked devices. -/
theorem mark_defaults_eq_map (devices : List Device) (def_source def_sink : Option String)
    (hfalse : ∀ d ∈ devices, d.is_default = false) :
    mark_defaults devices def_source def_sink =
      devices.map (fun d => { d with is_default := matches_default d def_source def_sink }) := by
  unfold mark_defaults
  refine List.map_congr_left (fun d hd => ?_)
  have hfd : d.is_default = false := hfalse d hd
  obtain ⟨i, nm, dt, bt, sr, ch, df, bp⟩ := d
  simp only at hfd
  subst hfd
  cases dt <;> cases def_source <;> cases def_sink <;>
    simp_all only [matches_default] <;> (try split_ifs) <;> (try simp_all) <;>
    exact fun hh => absurd hh.symm (by assumption)

/-- C9: after the enumeration loop exits, the post-processing pass rebuilds
the collected list with `is_default = true` on exactly the Microphone
devices whose id equals the resolved default-source name and the Speaker
devices whose id equals the resolved default-sink name; every other device
keeps `is_default = false` (all collected devices start out `false`). -/
theorem C9_default_marking (globals : List (Option Props × ℕ))
    (def_source def_sink : Option String) :
    mark_defaults (collect_devices globals) def_source def_sink =
      (collect_devices globals).map
        (fun d => { d with is_default := matches_default d def_source def_sink }) :=
  mark_defaults_eq_map _ def_source def_sink (collected_not_default globals)

/-! ## C4 — float sample to 16-bit conversion -/

/-- C4: the 16-bit value persisted for each float sample handed to
`AudioEncoder::write` equals the sample clamped to `[-1, 1]`, multiplied by
32767, then truncated toward zero (the `as i16` saturation never engages
after clamping); in particular 1 ↦ 32767, −1 ↦ −32767, 0 ↦ 0 and
1.5 ↦ 32767, and a fully successful write appends exactly the converted
batch to the file. -/
theorem C4_sample_conversion :
    (∀ s : ℚ, sample_to_i16 s = rat_trunc (clamp_unit s * 32767)) ∧
    sample_to_i16 1 = 32767 ∧
    sample_to_i16 (-1) = -32767 ∧
    sample_to_i16 0 = 0 ∧
    sample_to_i16 (3 / 2) = 32767 ∧
    (∀ (ws : List ℤ) (samples : List ℚ),
      encoder_write (some ws) samples none = (some (ws ++ samples.map sample_to_i16), true)) := by
  have key : ∀ s : ℚ, sample_to_i16 s = rat_trunc (clamp_unit s * 32767) := by
    intro s
    have hlo : (-1 : ℚ) ≤ clamp_unit s := by
      unfold clamp_unit; split_ifs <;> linarith
    have hhi : clamp_unit s ≤ 1 := by
      unfold clamp_unit; split_ifs <;> linarith
    have hclo : (-32767 : ℚ) ≤ clamp_unit s * 32767 := by nlinarith
    have hchi : clamp_unit s * 32767 ≤ 32767 := by nlinarith
    have htlo : (-32767 : ℤ) ≤ rat_trunc (clamp_unit s * 32767) := by
      unfold rat_trunc
      split_ifs with h0
      · have : (0 : ℤ) ≤ ⌊clamp_unit s * 32767⌋ := Int.le_floor.mpr (by exact_mod_cast h0)
        omega
      · have hc : ((-32767 : ℤ) : ℚ) ≤ clamp_unit s * 32767 := by exact_mod_cast hclo
        calc (-32767 : ℤ) = ⌈((-32767 : ℤ) : ℚ)⌉ := (Int.ceil_intCast _).symm
          _ ≤ ⌈clamp_unit s * 32767⌉ := Int.ceil_mono hc
    have hthi : rat_trunc (clamp_unit s * 32767) ≤ 32767 := by
      unfold rat_trunc
      split_ifs with h0
      · have hc : clamp_unit s * 32767 ≤ ((32767 : ℤ) : ℚ) := by exact_mod_cast hchi
        calc ⌊clamp_unit s * 32767⌋ ≤ ⌊((32767 : ℤ) : ℚ)⌋ := Int.floor_mono hc
          _ = 32767 := Int.floor_intCast _
      · have hneg : clamp_unit s * 32767 ≤ ((0 : ℤ) : ℚ) := by
          push_cast
          linarith [not_le.mp h0]
        have : ⌈clamp_unit s * 32767⌉ ≤ ⌈((0 : ℤ) : ℚ)⌉ := Int.ceil_mono hneg
        rw [Int.ceil_intCast] at this
        omega
    unfold sample_to_i16 sat_i16
    omega
  refine ⟨key, ?_, ?_, ?_, ?_, fun ws samples => rfl⟩ <;>
    norm_num [sample_to_i16, sat_i16, rat_trunc, clamp_unit, Int.ceil_neg]

/-! ## Session fixtures -/

/-- A session configuration requesting both sources. -/
def cfg_both : RecordingConfig :=
  { mic_device_id := some "alsa_input.mic0", system_audio := true,
    output_dir := "/tmp/rec", sample_rate := 48000 }

/-- A session configuration requesting only the microphone. -/
def cfg_mic : RecordingConfig :=
  { mic_device_id := some "alsa_input.mic0", system_audio := false,
    output_dir := "/tmp/rec", sample_rate := 48000 }

/-- A world where the output directory cannot be created and everything else
would have succeeded. -/
def bad_dir_world : SetupWorld :=
  { main_loop_ok := true, context_ok := true, core_connect_ok := true, dir_ok := false,
    mic_stream_ok := true, sys_stream_ok := true, actions := [],
    mic_finalize_ok := true, sys_finalize_ok := true }

/-- A world where setup succeeds, the mic stream negotiates a format (so its
encoder exists), and the first watchdog tick observes a Stop command. -/
def clean_stop_world : SetupWorld :=
  { main_loop_ok := true, context_ok := true, core_connect_ok := true, dir_ok := true,
    mic_stream_ok := true, sys_stream_ok := true,
    actions := [.format true true, .tick true],
    mic_finalize_ok := true, sys_finalize_ok := true }

/-- `clean_stop_world` with a failing WAV finalization on the mic stream. -/
def fin_fail_world : SetupWorld :=
  { clean_stop_world with mic_finalize_ok := false, sys_finalize_ok := false }

/-! ## C1 — fatal setup errors -/

/-- A fatal `connect_and_run` outcome can only arise before the `Started`
event is sent, so a fatally failing attempt contributes no events of its
own. -/
theorem fatal_attempt_events_empty (cfg : RecordingConfig) (w : SetupWorld) (m : String)
    (h : (connect_and_run cfg w).outcome = some (.fatal m)) :
    (connect_and_run cfg w).events = [] := by
  unfold connect_and_run connect_and_run_core at h ⊢
  split_ifs at h ⊢ <;> simp_all

/-- C1 (amended): a session whose setup attempt hits a fatal error emits
exactly two `Error` events — the same message, sent once by
`run_audio_thread` and once more by the thread closure of
`start_recording_impl` — no `Disconnected` event, and makes no retry
attempt: whatever worlds would have governed later attempts are never
consulted and the worker thread terminates. -/
theorem C1_fatal_no_retry (cfg : RecordingConfig) (w : SetupWorld) (rest : List SetupWorld)
    (m : String) (h : (connect_and_run cfg w).outcome = some (.fatal m)) :
    worker_thread cfg (w :: rest) = ([.error m, .error m], .fatalError m) ∧
    count_errors (worker_thread cfg (w :: rest)).1 = 2 ∧
    count_disconnects (worker_thread cfg (w :: rest)).1 = 0 := by
  have he := fatal_attempt_events_empty cfg w m h
  have hmain : worker_thread cfg (w :: rest) = ([.error m, .error m], .fatalError m) := by
    unfold worker_thread run_audio_thread
    simp [h, he]
  exact ⟨hmain, by rw [hmain]; rfl, by rw [hmain]; rfl⟩

theorem C1_fatal_no_retry_witness :
    worker_thread cfg_both [bad_dir_world, clean_stop_world] =
      ([.error "Failed to create output dir", .error "Failed to create output dir"],
       .fatalError "Failed to create output dir") ∧
    count_errors (worker_thread cfg_both [bad_dir_world, clean_stop_world]).1 = 2 ∧
    count_disconnects (worker_thread cfg_both [bad_dir_world, clean_stop_world]).1 = 0 :=
  C1_fatal_no_retry cfg_both bad_dir_world [clean_stop_world] "Failed to create output dir"
    (by rfl)

/-- C1 counterexample to the claim as stated: on a fatal setup error (the
output directory cannot be created) the event feed carries two `Error`
events, not exactly one. -/
theorem C1_counterexample :
    count_errors (worker_thread cfg_both [bad_dir_world]).1 = 2 ∧
    count_errors (worker_thread cfg_both [bad_dir_world]).1 ≠ 1 :=
  ⟨by rfl, by intro h; exact absurd ((by rfl : count_errors
      (worker_thread cfg_both [bad_dir_world]).1 = 2) ▸ h) (by decide)⟩

/-! ## C3 — encoder finalize failures are discarded -/

/-- C3 (amended): no Encoder failure at all — finalize included — reaches the
caller of `stop`.  The worker's event feed and outcome are bitwise
independent of the finalize verdicts (`let _ = encoder.finalize();`
discards them), and a cleanly stopped session always appends `Stopped` and
reports success. -/
theorem C3_finalize_not_propagated (cfg : RecordingConfig) (w : SetupWorld)
    (rest : List SetupWorld) (b b' : Bool) :
    worker_thread cfg ({ w with mic_finalize_ok := b, sys_finalize_ok := b' } :: rest) =
      worker_thread cfg (w :: rest) ∧
    ((connect_and_run cfg w).outcome = none →
      worker_thread cfg (w :: rest) = ((connect_and_run cfg w).events ++ [.stopped], .ok)) := by
  constructor
  · rfl
  · intro h
    unfold worker_thread run_audio_thread
    simp [h]

theorem C3_finalize_not_propagated_witness :
    worker_thread cfg_mic [fin_fail_world] = worker_thread cfg_mic [clean_stop_world] ∧
    worker_thread cfg_mic [clean_stop_world] =
      ((connect_and_run cfg_mic clean_stop_world).events ++ [.stopped], .ok) :=
  ⟨(C3_finalize_not_propagated cfg_mic clean_stop_world [] false false).1,
   (C3_finalize_not_propagated cfg_mic clean_stop_world [] false false).2 (by rfl)⟩

/-- C3 counterexample to the claim as stated: in a cleanly stopped session
whose mic encoder was created and whose WAV finalization fails, the failure
is observed (`mic_finalized = some false`) yet the stop outcome is success:
the attempt's outcome is `Ok`, the feed is `Started, Levels, Stopped` with
zero `Error` events, and the thread outcome is `ok` — nothing is propagated
to the caller of `stop`. -/
theorem C3_counterexample :
    (connect_and_run cfg_mic fin_fail_world).mic_finalized = some false ∧
    (connect_and_run cfg_mic fin_fail_world).outcome = none ∧
    worker_thread cfg_mic [fin_fail_world] =
      ([.started, .levels 0 0, .stopped], .ok) ∧
    count_errors (worker_thread cfg_mic [fin_fail_world]).1 = 0 :=
  ⟨by rfl, by rfl, by rfl, by rfl⟩

/-! ## C2 — encoder write failures -/

def c2_state : RunState := { init_run_state with mic_enc := some (some []) }

/-- C2 (amended): a failing Encoder write never aborts the stream — the
delivery emits no event, leaves the loop running, and later batches are
still processed and persisted — but the failing batch is not dropped
entirely: the samples before the failing index are already persisted when
the error hits, so exactly the converted prefix `samples.take j` of the
batch reaches the file. -/
theorem C2_write_failure_persists_prefix (ws : List ℤ) (samples : List ℚ) (j : ℕ)
    (hj : j < samples.length) (s : RunState) (hq : s.quit = false)
    (henc : s.mic_enc = some (some ws)) (next : List ℚ) :
    encoder_write (some ws) samples (some j) =
      (some (ws ++ (samples.take j).map sample_to_i16), false) ∧
    (run_actions s [.deliver true samples (some j)]).2 = [] ∧
    (run_actions s [.deliver true samples (some j)]).1.quit = false ∧
    (run_actions s [.deliver true samples (some j), .deliver true next none]).1.mic_enc =
      some (some (ws ++ (samples.take j).map sample_to_i16 ++ next.map sample_to_i16)) := by
  have hw : encoder_write (some ws) samples (some j) =
      (some (ws ++ (samples.take j).map sample_to_i16), false) := by
    simp [encoder_write, hj]
  refine ⟨hw, ?_, ?_, ?_⟩ <;>
    simp [run_actions, step, hq, henc, hw, encoder_write, hj, List.append_assoc]

theorem C2_write_failure_persists_prefix_witness :
    encoder_write (some []) [1 / 2, 1 / 2] (some 1) =
      (some (([] : List ℤ) ++ ([(1 : ℚ) / 2, 1 / 2].take 1).map sample_to_i16), false) ∧
    (run_actions c2_state [.deliver true [1 / 2, 1 / 2] (some 1)]).2 = [] ∧
    (run_actions c2_state [.deliver true [1 / 2, 1 / 2] (some 1)]).1.quit = false ∧
    (run_actions c2_state
        [.deliver true [1 / 2, 1 / 2] (some 1), .deliver true [1 / 4] none]).1.mic_enc =
      some (some (([] : List ℤ) ++ ([(1 : ℚ) / 2, 1 / 2].take 1).map sample_to_i16 ++
        [(1 : ℚ) / 4].map sample_to_i16)) :=
  C2_write_failure_persists_prefix [] [1 / 2, 1 / 2] 1 (by decide) c2_state (by rfl) (by rfl)
    [1 / 4]

/-- C2 counterexample to the claim as stated: deliver the two-sample batch
`[0.5, 0.5]` to a stream whose encoder is live with an empty file, with the
underlying writer failing at index 1.  The stream survives, but the file now
holds the converted first sample (16383) — it is not true that no sample of
the failing batch is persisted. -/
theorem C2_counterexample :
    (run_actions c2_state [.deliver true [1 / 2, 1 / 2] (some 1)]).1.mic_enc =
      some (some [16383]) ∧
    some (some [16383]) ≠ some (some ([] : List ℤ)) := by
  constructor
  · simp only [run_actions, step, c2_state, init_run_state, encoder_write]
    norm_num [sample_to_i16, sat_i16, rat_trunc, clamp_unit]
  · simp

/-! ## C6 — setup order on entering Running -/

/-- C6 (amended): on each (re)entry the supervisor performs, in this order:
ensure the output directory exists (failure is Fatal), then emit `Started`,
then construct and connect a stream for each requested source (failures
here are Recoverable, not Fatal), then arm the Watchdog and run the loop.
`Started` is emitted immediately after the directory step and before any
stream is constructed. -/
theorem C6_setup_order :
    (∀ (cfg : RecordingConfig) (w : SetupWorld),
      w.main_loop_ok = true → w.context_ok = true → w.core_connect_ok = true →
      w.dir_ok = true →
      (cfg.mic_device_id.isSome = true → w.mic_stream_ok = true) →
      (cfg.system_audio = true → w.sys_stream_ok = true) →
      (connect_and_run cfg w).steps =
        [.createMainLoop, .createContext, .connectCore, .ensureOutputDir, .emitStarted] ++
          (if cfg.mic_device_id.isSome then [.createMicStream] else []) ++
          (if cfg.system_audio then [.createSysStream] else []) ++
          [.armWatchdog, .runLoop] ∧
      (connect_and_run cfg w).events.head? = some .started) ∧
    (∀ (cfg : RecordingConfig) (w : SetupWorld),
      w.main_loop_ok = true → w.context_ok = true → w.core_connect_ok = true →
      w.dir_ok = false →
      (connect_and_run cfg w).outcome = some (.fatal "Failed to create output dir")) ∧
    (∀ (cfg : RecordingConfig) (w : SetupWorld),
      w.main_loop_ok = true → w.context_ok = true → w.core_connect_ok = true →
      w.dir_ok = true → cfg.mic_device_id.isSome = true → w.mic_stream_ok = false →
      (connect_and_run cfg w).outcome = some (.recoverable "Failed to create mic stream")) ∧
    (∀ (cfg : RecordingConfig) (w : SetupWorld),
      w.main_loop_ok = true → w.context_ok = true → w.core_connect_ok = true →
      w.dir_ok = true → (cfg.mic_device_id.isSome = true → w.mic_stream_ok = true) →
      cfg.system_audio = true → w.sys_stream_ok = false →
      (connect_and_run cfg w).outcome =
        some (.recoverable "Failed to create system stream")) := by
  refine ⟨?_, ?_, ?_, ?_⟩ <;>
  · intro cfg w h1 h2 h3 h4
    try intro h5
    try intro h6
    try intro h7
    simp only [connect_and_run, connect_and_run_core]
    split_ifs <;> simp_all

theorem C6_setup_order_witness :
    (connect_and_run cfg_both clean_stop_world).steps =
      [.createMainLoop, .createContext, .connectCore, .ensureOutputDir, .emitStarted] ++
        (if cfg_both.mic_device_id.isSome then [.createMicStream] else []) ++
        (if cfg_both.system_audio then [.createSysStream] else []) ++
        [.armWatchdog, .runLoop] ∧
    (connect_and_run cfg_both clean_stop_world).events.head? = some .started :=
  C6_setup_order.1 cfg_both clean_stop_world rfl rfl rfl rfl (fun _ => rfl) (fun _ => rfl)

/-- C6 counterexample to the claim as stated: with both sources requested and
a fully successful setup, the step trace places `emitStarted` strictly
before `createMicStream` and `createSysStream` — `Started` is not emitted
after the stream pipelines are constructed, but before them. -/
theorem C6_counterexample :
    (connect_and_run cfg_both clean_stop_world).steps =
      [.createMainLoop, .createContext, .connectCore, .ensureOutputDir, .emitStarted,
       .createMicStream, .createSysStream, .armWatchdog, .runLoop] ∧
    pos_of .emitStarted (connect_and_run cfg_both clean_stop_world).steps = 4 ∧
    pos_of .createMicStream (connect_and_run cfg_both clean_stop_world).steps = 5 ∧
    ¬ (pos_of .createMicStream (connect_and_run cfg_both clean_stop_world).steps <
       pos_of .emitStarted (connect_and_run cfg_both clean_stop_world).steps) := by
  have h1 : pos_of .emitStarted (connect_and_run cfg_both clean_stop_world).steps = 4 := by rfl
  have h2 : pos_of .createMicStream (connect_and_run cfg_both clean_stop_world).steps = 5 := by
    rfl
  exact ⟨by rfl, h1, h2, by rw [h1, h2]; decide⟩

/-! ## C5 — the metering window -/

/-- A scripted delivery: role flag, decoded samples, write-failure index. -/
def to_deliver (d : Bool × List ℚ × Option ℕ) : RunAction := .deliver d.1 d.2.1 d.2.2

/-- The batches of one role inside a delivery window. -/
def role_batches (ds : List (Bool × List ℚ × Option ℕ)) (is_mic : Bool) : List (List ℚ) :=
  (ds.filter (fun d => d.1 = is_mic)).map (fun d => d.2.1)

/-- The spec-side value of a Levels field: the maximum of `|sample|` over all
samples of the window's batches for that role, `0` when there are none. -/
def window_peak (ds : List (Bool × List ℚ × Option ℕ)) (is_mic : Bool) : ℚ :=
  batch_peak (role_batches ds is_mic).flatten

theorem batch_peak_nonneg (samples : List ℚ) : 0 ≤ batch_peak samples := by
  suffices h : ∀ c : ℚ, 0 ≤ c → 0 ≤ samples.foldl (fun a s => max a |s|) c from
    h 0 le_rfl
  induction samples with
  | nil => exact fun c hc => hc
  | cons x xs ih => exact fun c hc => ih _ (le_trans hc (le_max_left _ _))

theorem foldl_max_abs (samples : List ℚ) :
    ∀ c : ℚ, 0 ≤ c →
      samples.foldl (fun a s => max a |s|) c = max c (batch_peak samples) := by
  induction samples with
  | nil => intro c hc; simp [batch_peak, max_eq_left hc]
  | cons x xs ih =>
    intro c hc
    have hbp : batch_peak (x :: xs) = max |x| (batch_peak xs) := by
      have h0 : batch_peak (x :: xs) =
          List.foldl (fun a s => max a |s|) (max (0 : ℚ) |x|) xs := rfl
      rw [h0, max_eq_right (abs_nonneg x), ih |x| (abs_nonneg x)]
    have hL : List.foldl (fun a s => max a |s|) c (x :: xs) =
        List.foldl (fun a s => max a |s|) (max c |x|) xs := rfl
    rw [hL, ih (max c |x|) (le_trans hc (le_max_left _ _)), hbp, max_assoc]

theorem batch_peak_append (xs ys : List ℚ) :
    batch_peak (xs ++ ys) = max (batch_peak xs) (batch_peak ys) := by
  unfold batch_peak
  rw [List.foldl_append]
  exact foldl_max_abs ys _ (batch_peak_nonneg xs)

/-- Folding window batches into an accumulator one `max` at a time (what the
process callbacks do) computes the `max` of the accumulator with the joined
window peak. -/
theorem acc_window_peak (bs : List (List ℚ)) :
    ∀ c : ℚ, 0 ≤ c →
      bs.foldl (fun a b => max a (batch_peak b)) c = max c (batch_peak bs.flatten) := by
  induction bs with
  | nil => intro c hc; simp [batch_peak, max_eq_left hc]
  | cons b bs ih =>
    intro c hc
    have h1 := ih (max c (batch_peak b)) (le_trans hc (le_max_left _ _))
    simp only [List.foldl, h1, List.flatten, batch_peak_append, max_assoc]

/-- How one buffer delivery transforms the shared state: the delivered
role's accumulator takes the `max` with the batch peak, everything else the
watchdog reads is untouched, and no event is emitted. -/
theorem step_deliver_projs (s : RunState) (m : Bool) (samples : List ℚ) (fa : Option ℕ) :
    (step s (.deliver m samples fa)).1.quit = s.quit ∧
    (step s (.deliver m samples fa)).1.mic_level =
      (if m then max s.mic_level (batch_peak samples) else s.mic_level) ∧
    (step s (.deliver m samples fa)).1.sys_level =
      (if m then s.sys_level else max s.sys_level (batch_peak samples)) ∧
    (step s (.deliver m samples fa)).2 = [] := by
  cases m <;> cases hm : s.mic_enc <;> cases hs : s.sys_enc <;> simp [step, hm, hs]

/-- Running a window of deliveries and then a quiet tick, from any live
state: the tick emits exactly one Levels event whose fields are the
accumulators the deliveries built up, and both accumulators are reset. -/
theorem run_deliver_window (ds : List (Bool × List ℚ × Option ℕ)) :
    ∀ s : RunState, s.quit = false →
      (run_actions s (ds.map to_deliver ++ [.tick false])).2 =
        [.levels
          ((role_batches ds true).foldl (fun a b => max a (batch_peak b)) s.mic_level)
          ((role_batches ds false).foldl (fun a b => max a (batch_peak b)) s.sys_level)] ∧
      (run_actions s (ds.map to_deliver ++ [.tick false])).1.mic_level = 0 ∧
      (run_actions s (ds.map to_deliver ++ [.tick false])).1.sys_level = 0 := by
  induction ds with
  | nil =>
    intro s hq
    simp [run_actions, step, hq, role_batches]
  | cons d ds ih =>
    intro s hq
    obtain ⟨m, samples, fa⟩ := d
    obtain ⟨hquit, hmic, hsys, hev⟩ := step_deliver_projs s m samples fa
    have hrun : run_actions s (((m, samples, fa) :: ds).map to_deliver ++ [.tick false]) =
        run_actions ((step s (.deliver m samples fa)).1) (ds.map to_deliver ++ [.tick false]) := by
      rw [List.map_cons, List.cons_append, run_actions]
      simp [to_deliver, hq, hev]
    have ihs := ih ((step s (.deliver m samples fa)).1) (by rw [hquit, hq])
    rw [hrun]
    refine ⟨?_, ihs.2.1, ihs.2.2⟩
    rw [ihs.1]
    cases m <;>
      simp [role_batches, List.filter_cons, hmic, hsys]

/-- C5: for every sequence of sample batches delivered to the streams
between two consecutive watchdog ticks (the window opens on a post-tick
state, whose accumulators read 0), the next tick emits exactly one Levels
event — the deliveries themselves emit nothing — whose field for each role
equals the maximum of `|sample|` over exactly that role's batches (0 if no
batch arrived for it, in particular for a source that is not enabled and
hence has no stream delivering), and both accumulators read 0 immediately
after the tick. -/
theorem C5_levels_window (s : RunState) (ds : List (Bool × List ℚ × Option ℕ))
    (hq : s.quit = false) (hm : s.mic_level = 0) (hs : s.sys_level = 0) :
    (run_actions s (ds.map to_deliver ++ [.tick false])).2 =
      [.levels (window_peak ds true) (window_peak ds false)] ∧
    (run_actions s (ds.map to_deliver ++ [.tick false])).1.mic_level = 0 ∧
    (run_actions s (ds.map to_deliver ++ [.tick false])).1.sys_level = 0 := by
  obtain ⟨h1, h2, h3⟩ := run_deliver_window ds s hq
  refine ⟨?_, h2, h3⟩
  rw [h1, hm, hs]
  rw [acc_window_peak _ 0 le_rfl, acc_window_peak _ 0 le_rfl]
  simp [window_peak, max_eq_right (batch_peak_nonneg _)]

theorem C5_levels_window_witness :
    (run_actions init_run_state
        ([(true, [1, -1/2], none), (false, [1/4], none)].map to_deliver ++ [.tick false])).2 =
      [.levels 1 (1/4)] ∧
    (run_actions init_run_state
        ([(true, [1, -1/2], none), (false, [1/4], none)].map to_deliver ++ [.tick false])).1.mic_level = 0 ∧
    (run_actions init_run_state
        ([(true, [1, -1/2], none), (false, [1/4], none)].map to_deliver ++ [.tick false])).1.sys_level = 0 := by
  have h := C5_levels_window init_run_state [(true, [1, -1/2], none), (false, [1/4], none)]
    (by rfl) (by rfl) (by rfl)
  have hw1 : window_peak [(true, [(1 : ℚ), -1/2], none), (false, [1/4], none)] true = 1 := by
    simp only [window_peak, role_batches, batch_peak, List.filter, List.map, List.flatten,
      List.foldl, List.append_nil]
    norm_num [max_def, abs_of_nonpos, abs_of_nonneg]
  have hw2 : window_peak [(true, [(1 : ℚ), -1/2], none), (false, [1/4], none)] false = 1/4 := by
    simp only [window_peak, role_batches, batch_peak, List.filter, List.map, List.flatten,
      List.foldl, List.append_nil]
    norm_num [max_def, abs_of_nonpos, abs_of_nonneg]
  rw [hw1, hw2] at h
  exact h

/-! ## C7 — default-device value resolution -/

/-- An identifier character that needs no JSON escaping: neither a quote nor
a backslash.  Device identifiers such as `alsa_output.foo` are plain. -/
def plain_char (c : Char) : Bool := c ≠ quote_char ∧ c ≠ backslash_char

/-- The JSON object — open brace, `"name":`, the quoted identifier, close
brace, no spaces — built character by character. -/
def json_name_wrap (s : String) : String :=
  String.mk (open_brace_char :: name_colon_pat ++ quote_char :: s.data ++
    [quote_char, close_brace_char])

theorem skip_ws_cons (c : Char) (r : List Char) (h : is_ws_char c = false) :
    skip_ws (c :: r) = c :: r := by
  rw [skip_ws.eq_def]
  simp [h]

theorem scan_string_plain (l : List Char) (r : List Char) (hl : l.all plain_char = true) :
    scan_string (l ++ quote_char :: r) = some (l, r) := by
  induction l with
  | nil =>
    rw [List.nil_append, scan_string.eq_def]
    simp
  | cons c cs ih =>
    rw [List.all_cons, Bool.and_eq_true] at hl
    have hc : ¬c = quote_char ∧ ¬c = backslash_char := by
      have := hl.1
      simpa [plain_char] using this
    rw [List.cons_append, scan_string.eq_def]
    simp [hc.1, hc.2, ih hl.2]

theorem find_char_idx_plain (l r : List Char) (hl : l.all plain_char = true) :
    find_char_idx quote_char (l ++ quote_char :: r) = some l.length := by
  induction l with
  | nil =>
    rw [List.nil_append, find_char_idx.eq_def]
    simp
  | cons c cs ih =>
    rw [List.all_cons, Bool.and_eq_true] at hl
    have hc : ¬c = quote_char := by
      have := hl.1
      simp [plain_char] at this
      exact this.1
    rw [List.cons_append, find_char_idx.eq_def]
    simp [hc, ih hl.2]

/-- `scan_fields` on the single-field body: `"name":`, the quoted
identifier, and the closing brace, for any positive fuel. -/
theorem scan_fields_single (n : ℕ) (s : String) (hs : s.data.all plain_char = true) :
    scan_fields (n + 1) (quote_char :: 'n' :: 'a' :: 'm' :: 'e' :: quote_char :: ':' ::
        quote_char :: (s.data ++ [quote_char, close_brace_char])) =
      some ([(['n', 'a', 'm', 'e'], s.data)], []) := by
  have hws_quote : ∀ l : List Char, skip_ws (quote_char :: l) = quote_char :: l :=
    fun l => skip_ws_cons _ _ (by decide)
  have hws_colon : ∀ l : List Char, skip_ws (':' :: l) = ':' :: l :=
    fun l => skip_ws_cons _ _ (by decide)
  have hws_close : ∀ l : List Char,
      skip_ws (close_brace_char :: l) = close_brace_char :: l :=
    fun l => skip_ws_cons _ _ (by decide)
  have hname : scan_string ('n' :: 'a' :: 'm' :: 'e' :: quote_char :: ':' :: quote_char ::
      (s.data ++ [quote_char, close_brace_char])) =
      some (['n', 'a', 'm', 'e'],
        ':' :: quote_char :: (s.data ++ [quote_char, close_brace_char])) := by
    have h := scan_string_plain ['n', 'a', 'm', 'e']
      (':' :: quote_char :: (s.data ++ [quote_char, close_brace_char])) (by decide)
    simpa using h
  have hval : scan_string (s.data ++ [quote_char, close_brace_char]) =
      some (s.data, [close_brace_char]) := scan_string_plain s.data _ hs
  have h2 : ¬(close_brace_char = ',') := by decide
  rw [scan_fields.eq_def]
  simp only [hws_quote, hws_colon, hws_close, hname, hval, h2, if_false]
  simp

theorem json_name_field_wrap (s : String) (hs : s.data.all plain_char = true) :
    json_name_field (json_name_wrap s) = some s := by
  have hws_open : ∀ l : List Char, skip_ws (open_brace_char :: l) = open_brace_char :: l :=
    fun l => skip_ws_cons _ _ (by decide)
  have hws_quote : ∀ l : List Char, skip_ws (quote_char :: l) = quote_char :: l :=
    fun l => skip_ws_cons _ _ (by decide)
  have hws_nil : skip_ws ([] : List Char) = [] := rfl
  have hlook : List.lookup ['n', 'a', 'm', 'e'] [(['n', 'a', 'm', 'e'], s.data)] =
      some s.data := by
    simp [List.lookup]
  have h1 : ¬(quote_char = close_brace_char) := by decide
  have hsf : ∀ n : ℕ, scan_fields (n + 1)
      (quote_char :: 'n' :: 'a' :: 'm' :: 'e' :: quote_char :: ':' ::
        quote_char :: (s.data ++ [quote_char, close_brace_char])) =
      some ([(['n', 'a', 'm', 'e'], s.data)], []) :=
    fun n => scan_fields_single n s hs
  unfold json_name_field json_name_wrap name_colon_pat
  simp only [List.cons_append, List.nil_append, hws_open, hws_quote, h1, if_false,
    hsf, hws_nil, hlook]
  simp

theorem granola_default_name_wrap (s : String) (hs : s.data.all plain_char = true) :
    granola_default_name (json_name_wrap s) = some s := by
  have hsw : starts_with_brace (json_name_wrap s) = true := by
    simp [starts_with_brace, json_name_wrap]
  have hdata : (json_name_wrap s).data = open_brace_char :: quote_char :: 'n' :: 'a' ::
      'm' :: 'e' :: quote_char :: ':' :: quote_char ::
      (s.data ++ [quote_char, close_brace_char]) := by
    simp [json_name_wrap, name_colon_pat]
  have hfind : find_sub_idx name_colon_pat (open_brace_char :: quote_char :: 'n' :: 'a' ::
      'm' :: 'e' :: quote_char :: ':' :: quote_char ::
      (s.data ++ [quote_char, close_brace_char])) = some 1 := by
    have hp1 : name_colon_pat.isPrefixOf (open_brace_char :: quote_char :: 'n' :: 'a' ::
        'm' :: 'e' :: quote_char :: ':' :: quote_char ::
        (s.data ++ [quote_char, close_brace_char])) = false := by
      simp [name_colon_pat, List.isPrefixOf,
        show (quote_char == open_brace_char) = false from by decide]
    have hp2 : name_colon_pat.isPrefixOf (quote_char :: 'n' :: 'a' :: 'm' :: 'e' ::
        quote_char :: ':' :: quote_char ::
        (s.data ++ [quote_char, close_brace_char])) = true := by
      simp [name_colon_pat, List.isPrefixOf]
    rw [find_sub_idx.eq_def]
    simp only [hp1, Bool.false_eq_true, if_false]
    rw [find_sub_idx.eq_def]
    simp only [hp2, if_true]
    rfl
  have hdrop8 : List.drop (1 + 7) (open_brace_char :: quote_char :: 'n' :: 'a' :: 'm' ::
      'e' :: quote_char :: ':' :: quote_char ::
      (s.data ++ [quote_char, close_brace_char])) =
      quote_char :: (s.data ++ [quote_char, close_brace_char]) := rfl
  have hfq : find_char_idx quote_char
      (quote_char :: (s.data ++ [quote_char, close_brace_char])) = some 0 := by
    rw [find_char_idx.eq_def]
    simp
  have hdrop1 : List.drop (0 + 1)
      (quote_char :: (s.data ++ [quote_char, close_brace_char])) =
      s.data ++ [quote_char, close_brace_char] := rfl
  have hfq2 : find_char_idx quote_char (s.data ++ [quote_char, close_brace_char]) =
      some s.data.length := find_char_idx_plain s.data [close_brace_char] hs
  unfold granola_default_name
  simp only [hsw, if_true, hdata, hfind, hdrop8, hfq, hdrop1, hfq2, List.take_left]

/-- C7: a bare identifier string `s` and the JSON object carrying `s` in its
`name` field resolve to the same logical identifier `s`, under both the serde-backed
quinoa parser and the hand-rolled granola parser; an unparseable value
yields no parse and the metadata callback then retains the previously
resolved value (initially absent), while a parsed value replaces it. -/
theorem C7_default_value_resolution :
    (∀ v : String, starts_with_brace v = false →
      parse_default_device v = some v ∧ granola_default_name v = some v) ∧
    (∀ s : String, s.data.all plain_char = true →
      parse_default_device (json_name_wrap s) = some s ∧
      granola_default_name (json_name_wrap s) = some s) ∧
    (∀ (prev : Option String) (v : String), parse_default_device v = none →
      apply_default_update parse_default_device prev v = prev) ∧
    (∀ (prev : Option String) (v : String), granola_default_name v = none →
      apply_default_update granola_default_name prev v = prev) ∧
    (∀ (prev : Option String) (v n : String), parse_default_device v = some n →
      apply_default_update parse_default_device prev v = some n) := by
  refine ⟨?_, ?_, ?_, ?_, ?_⟩
  · intro v hv
    constructor
    · simp [parse_default_device, hv]
    · simp [granola_default_name, hv]
  · intro s hs
    refine ⟨?_, granola_default_name_wrap s hs⟩
    have hb : starts_with_brace (json_name_wrap s) = true := by
      simp [starts_with_brace, json_name_wrap]
    simp [parse_default_device, hb, json_name_field_wrap s hs]
  · intro prev v h
    simp [apply_default_update, h]
  · intro prev v h
    simp [apply_default_update, h]
  · intro prev v n h
    simp [apply_default_update, h]

/-- An unparseable default-device value: starts with a brace but carries no
`name` field. -/
def bad_default_value : String := String.mk (open_brace_char :: "oops".data)

theorem C7_default_value_resolution_witness :
    parse_default_device "alsa_output.foo" = some "alsa_output.foo" ∧
    granola_default_name "alsa_output.foo" = some "alsa_output.foo" ∧
    parse_default_device (json_name_wrap "alsa_output.foo") = some "alsa_output.foo" ∧
    granola_default_name (json_name_wrap "alsa_output.foo") = some "alsa_output.foo" ∧
    apply_default_update parse_default_device (some "prior") bad_default_value =
      some "prior" ∧
    apply_default_update granola_default_name none bad_default_value = none ∧
    apply_default_update parse_default_device none "alsa_output.foo" =
      some "alsa_output.foo" :=
  have h1 := C7_default_value_resolution.1 "alsa_output.foo" (by decide)
  have h2 := C7_default_value_resolution.2.1 "alsa_output.foo" (by decide)
  ⟨h1.1, h1.2, h2.1, h2.2,
   C7_default_value_resolution.2.2.1 (some "prior") bad_default_value (by rfl),
   C7_default_value_resolution.2.2.2.1 none bad_default_value (by rfl),
   C7_default_value_resolution.2.2.2.2 none "alsa_output.foo" "alsa_output.foo"
     (h1.1)⟩

end Quinoa
